import Mathlib

/-!
# Verification of the repository analysis and remediation pipeline

Shallow embedding of the pipeline implemented in `src/app.py` (the
Streamlit front end of the AI Developer Ops Agent) and theorems settling
the specification claims about it.

Python dictionaries coming back from the LLM are embedded as association
lists over `String` keys; `dict.get(k, d)` becomes `Dict.getD`.  The
stateful Streamlit workflow (lines 218-298 of `src/app.py`) and the
pull-request section (lines 301, 671-753) become pure functions from the
button inputs, the session state and an environment describing the
outcomes of the outbound calls, to the new session state plus a trace of
the calls made and the user-visible messages.
-/

namespace AppModel

/-- A Python `dict` with string keys, embedded as an association list. -/
abbrev Dict (α : Type) : Type := List (String × α)

/-- `d[k]` as an option: the value of the first binding of `k`. -/
def Dict.get? {α : Type} (m : Dict α) (k : String) : Option α :=
  (List.find? (fun p => p.1 == k) m).map (fun p => p.2)

/-- Python `m.get(k, d)`. -/
def Dict.getD {α : Type} (m : Dict α) (k : String) (d : α) : α :=
  (Dict.get? m k).getD d

/-- One entry of the `issues` list inside the `dependencies` detail of the
LLM analysis (read by the Dependencies tab, `src/app.py` lines 627-637). -/
structure DepIssue where
  package : Option String
  current_version : Option String
  issue : Option String
  recommended_version : Option String
deriving DecidableEq

/-- The `dependencies` detail object of the analysis: a dict that may
carry an `issues` list (`src/app.py` lines 616, 627). -/
structure DepsDetail where
  issues : Option (List DepIssue)
deriving DecidableEq

/-- The `summary` dict of the analysis, with the fields read by the
executive summary section (`src/app.py` lines 310-362). Every field may be
missing from the LLM response. -/
structure Summary where
  overall_health_score : Option Int
  total_issues_found : Option Int
  critical_security_issues : Option Int
  high_security_issues : Option Int
  performance_bottlenecks : Option Int
  recommendation : Option String
deriving DecidableEq

/-- One element of `priority_fixes`, with the fields read at
`src/app.py` lines 372-376 and 722. -/
structure PriorityFix where
  priority : Option String
  category : Option String
  action : Option String
  issue : Option (Dict String)
deriving DecidableEq

/-- The analysis dict produced by `deep_analyze`, restricted to the keys
the claims are about; each key may be absent (`analysis.get(..., default)`
is used everywhere in `src/app.py`). -/
structure Analysis where
  scores : Option (Dict Int)
  summary : Option Summary
  priority_fixes : Option (List PriorityFix)
  dependencies : Option DepsDetail
deriving DecidableEq

/-- The seven fixed analysis dimensions, in the order of
`create_dimension_chart` (`src/app.py` lines 115-125). -/
def dimension_keys : List String :=
  ["security", "performance", "architecture", "code_quality",
   "documentation", "dependencies", "best_practices"]

/-- The `values` list assembled by `create_dimension_chart`
(`src/app.py` lines 118-126): one entry per fixed dimension, each read
from the `scores` dict with default `0`. -/
def create_dimension_chart_values (scores : Dict Int) : List Int :=
  [Dict.getD scores "security" 0,
   Dict.getD scores "performance" 0,
   Dict.getD scores "architecture" 0,
   Dict.getD scores "code_quality" 0,
   Dict.getD scores "documentation" 0,
   Dict.getD scores "dependencies" 0,
   Dict.getD scores "best_practices" 0]

/-- Modelled from the spec: `agents/deep_analyzer.py` (the Structured
Analyzer that builds the `AnalysisReport` from the raw LLM response) is
not among the sources under `src/`.  Per the spec the Analyzer must
"validate that each of the seven keys is present, coercing missing keys
to an empty/zero default", yielding a `scores` mapping "from dimension
name (one of the fixed set ...) to a numeric value in [0, 100]". -/
def deep_analyze_normalized_scores (raw : Dict Int) : Dict Int :=
  dimension_keys.map (fun k => (k, min 100 (max 0 (Dict.getD raw k 0))))

/-- `summary` with every field missing (`analysis.get('summary', {})`). -/
def default_summary : Summary :=
  { overall_health_score := none, total_issues_found := none,
    critical_security_issues := none, high_security_issues := none,
    performance_bottlenecks := none, recommendation := none }

/-- `summary = analysis.get('summary', {})` (`src/app.py` line 310). -/
def summaryOf (a : Analysis) : Summary :=
  a.summary.getD default_summary

/-- `recommendation = summary.get('recommendation', 'Analysis complete')`
(`src/app.py` line 356). -/
def recommendationOf (a : Analysis) : String :=
  (summaryOf a).recommendation.getD "Analysis complete"

/-- Whether `needle` occurs as a contiguous run inside the character
list, Python's `needle in s` on strings. -/
def occursIn (needle : List Char) : List Char → Bool
  | [] => List.isEmpty needle
  | c :: rest => List.isPrefixOf needle (c :: rest) || occursIn needle rest

/-- Python `sub in s` for strings. -/
def pyIn (sub s : String) : Bool :=
  occursIn sub.toList s.toList

/-- Which Streamlit widget the recommendation is rendered with. -/
inductive RenderKind where
  | error
  | warning
  | success
deriving DecidableEq

/-- The `if '🚨' in recommendation or 'URGENT' in recommendation /
elif '⚠' in recommendation / else` classification of the overall
recommendation (`src/app.py` lines 357-362). -/
def renderRecommendation (recommendation : String) : RenderKind :=
  if pyIn "🚨" recommendation || pyIn "URGENT" recommendation then .error
  else if pyIn "⚠" recommendation then .warning
  else .success

/-- `priorities = analysis.get('priority_fixes', [])`
(`src/app.py` line 369). -/
def priorityFixesOf (a : Analysis) : List PriorityFix :=
  a.priority_fixes.getD []

/-- The fixes actually rendered: `priorities[:5]`
(`src/app.py` line 372). -/
def displayedPriorityFixes (a : Analysis) : List PriorityFix :=
  (priorityFixesOf a).take 5

/-- `deps` dict with no `issues` key, the `{}` default. -/
def default_deps : DepsDetail := { issues := none }

/-- `deps = analysis.get('dependencies', {})` (`src/app.py` line 616). -/
def dependenciesTabDetail (a : Analysis) : DepsDetail :=
  a.dependencies.getD default_deps

/-- `deps_score = scores.get('dependencies', 0)` where
`scores = analysis.get('scores', {})` (`src/app.py` lines 408, 617). -/
def dependenciesTabScore (a : Analysis) : Int :=
  Dict.getD (a.scores.getD []) "dependencies" 0

/-- `issues = deps.get('issues', [])` (`src/app.py` line 627). -/
def dependenciesTabIssues (a : Analysis) : List DepIssue :=
  (dependenciesTabDetail a).issues.getD []

/-- Python `str` of an optional value as interpolated by an f-string:
`None` prints as `"None"`. -/
def pyStrOfOptStr : Option String → String
  | some s => s
  | none => "None"

/-- The priority-fix lines embedded in the pull-request body: the list
comprehension over `priorities[:5]` building one line
`- category: action` per fix from `p.get('category')` and
`p.get('action')` (`src/app.py` line 722). -/
def pr_body_priority_lines (priorities : List PriorityFix) : List String :=
  (priorities.take 5).map
    (fun p => "- " ++ pyStrOfOptStr p.category ++ ": " ++ pyStrOfOptStr p.action)

/-! ## The analysis workflow (`src/app.py` lines 218-298) -/

/-- The dict stored as `st.session_state.analysis_results`
(`src/app.py` lines 282-287). -/
structure AnalysisResults where
  analysis : Analysis
  updated_files : Dict String
  total_files : Nat
  repo_url : String
deriving DecidableEq

/-- The Streamlit session state used by the pipeline
(`st.session_state.analysis_complete`,
`st.session_state.analysis_results`, `src/app.py` lines 26-29). -/
structure SessionState where
  analysis_complete : Bool
  analysis_results : Option AnalysisResults
deriving DecidableEq

/-- Outcomes of the outbound calls made during one analysis run; `.error`
models the call raising an exception (caught by the `try`/`except` at
`src/app.py` lines 231, 292). -/
structure Env where
  get_repo_files : Except String (Dict String)
  get_repo_structure : Except String String
  deep_analyze : Except String Analysis
  generate_missing_docstrings : Except String (Dict String)

/-- Constructor and outbound calls made by `src/app.py`, in the order
they are executed; `create_pull_request_call` records the arguments the
publisher receives (`src/app.py` lines 732-738). -/
inductive Stage where
  | mkGitHubHelper
  | mkDeepAnalyzer
  | mkDocGenerator
  | get_repo_files_call
  | get_repo_structure_call
  | deep_analyze_call
  | generate_missing_docstrings_call
  | create_pull_request_call (files_to_update : Dict String) (branch_name : String)
deriving DecidableEq

/-- User-visible outcome messages of the two workflows. -/
inductive Msg where
  | error_both_keys
  | error_could_not_fetch
  | success_fetched (n : Nat)
  | success_analysis
  | error_exception (e : String)
  | info_no_fixes
  | success_pr (url : String)
  | error_pr_failed
  | error_pr_exception (e : String)
deriving DecidableEq

/-- Result of one run of a workflow: the session state it leaves behind,
the calls it made in order, and the messages it showed. -/
structure RunOutput where
  state : SessionState
  calls : List Stage
  msgs : List Msg
deriving DecidableEq

/-- Helper and outbound calls of a full successful analysis run, in
program order (`src/app.py` lines 223-225, 237, 256, 259, 270). -/
def analysisCallOrder : List Stage :=
  [.mkGitHubHelper, .mkDeepAnalyzer, .mkDocGenerator, .get_repo_files_call,
   .get_repo_structure_call, .deep_analyze_call,
   .generate_missing_docstrings_call]

/-- The helper constructions and the `try` block of the analysis workflow
(`src/app.py` lines 222-298): fetch, structure, deep analysis and
docstring generation run in sequence, with the empty-file-set early exit,
the storing of fresh results on success, and the `except` handler that
reports the error and leaves the session state alone. -/
def runTryBlock (repo_url : String) (env : Env) (s : SessionState) :
    RunOutput :=
  match env.get_repo_files with
      | .error e =>
          { state := s,
            calls := [.mkGitHubHelper, .mkDeepAnalyzer, .mkDocGenerator,
                      .get_repo_files_call],
            msgs := [.error_exception e] }
      | .ok files =>
          if files.isEmpty then
            { state := s,
              calls := [.mkGitHubHelper, .mkDeepAnalyzer, .mkDocGenerator,
                        .get_repo_files_call],
              msgs := [.error_could_not_fetch] }
          else
            match env.get_repo_structure with
            | .error e =>
                { state := s,
                  calls := [.mkGitHubHelper, .mkDeepAnalyzer, .mkDocGenerator,
                            .get_repo_files_call, .get_repo_structure_call],
                  msgs := [.success_fetched files.length, .error_exception e] }
            | .ok _repo_structure =>
                match env.deep_analyze with
                | .error e =>
                    { state := s,
                      calls := [.mkGitHubHelper, .mkDeepAnalyzer,
                                .mkDocGenerator, .get_repo_files_call,
                                .get_repo_structure_call, .deep_analyze_call],
                      msgs := [.success_fetched files.length,
                               .error_exception e] }
                | .ok analysis =>
                    match env.generate_missing_docstrings with
                    | .error e =>
                        { state := s,
                          calls := [.mkGitHubHelper, .mkDeepAnalyzer,
                                    .mkDocGenerator, .get_repo_files_call,
                                    .get_repo_structure_call,
                                    .deep_analyze_call,
                                    .generate_missing_docstrings_call],
                          msgs := [.success_fetched files.length,
                                   .success_analysis, .error_exception e] }
                    | .ok updated_files =>
                        { state :=
                            { analysis_complete := true,
                              analysis_results := some
                                { analysis := analysis,
                                  updated_files := updated_files,
                                  total_files := files.length,
                                  repo_url := repo_url } },
                          calls := [.mkGitHubHelper, .mkDeepAnalyzer,
                                    .mkDocGenerator, .get_repo_files_call,
                                    .get_repo_structure_call,
                                    .deep_analyze_call,
                                    .generate_missing_docstrings_call],
                          msgs := [.success_fetched files.length,
                                   .success_analysis] }

/-- The analysis workflow of `src/app.py` lines 218-298: the
`if analyze_btn and repo_url:` entry condition, the API-key guard, and
then the helper constructions plus the `try` block (`runTryBlock`). -/
def runAnalysisWorkflow (analyze_btn : Bool)
    (repo_url google_api_key github_token : String)
    (env : Env) (s : SessionState) : RunOutput :=
  if analyze_btn && repo_url != "" then
    if google_api_key == "" || github_token == "" then
      { state := s, calls := [], msgs := [.error_both_keys] }
    else
      runTryBlock repo_url env s
  else { state := s, calls := [], msgs := [] }

/-! ## The pull-request section (`src/app.py` lines 301, 671-753) -/

/-- Outcomes of the outbound world during the pull-request section:
`int(time.time())` and the `create_pull_request` call (`.ok none` models
the helper returning a falsy `pr_url`, `.error` an exception). -/
structure PrEnv where
  now : Nat
  create_pull_request : Except String (Option String)

/-- `branch_name = f"ai-agent-improvements-&#x7b;int(time.time())&#x7d;"`
(`src/app.py` line 703). -/
def branch_name_of (now : Nat) : String :=
  "ai-agent-improvements-" ++ Nat.repr now

/-- The pull-request section of `src/app.py`: everything below is inside
`if st.session_state.analysis_complete and st.session_state.analysis_results:`
(line 301); the whole publish path is further guarded by
`if results['updated_files']:` (line 671) and by the
`create_pr_btn` button (line 699); on click a `GitHubHelper` is
constructed and `create_pull_request` is invoked with the stored
`updated_files` and the time-based branch name (lines 702-738). -/
def runPrSection (create_pr_btn : Bool) (_pr_title _github_token : String)
    (env : PrEnv) (s : SessionState) : List Stage × List Msg :=
  match s.analysis_results with
  | none => ([], [])
  | some results =>
      if s.analysis_complete then
        if results.updated_files.isEmpty then
          ([], [.info_no_fixes])
        else if create_pr_btn then
          match env.create_pull_request with
          | .error e =>
              ([.mkGitHubHelper,
                .create_pull_request_call results.updated_files
                  (branch_name_of env.now)],
               [.error_pr_exception e])
          | .ok none =>
              ([.mkGitHubHelper,
                .create_pull_request_call results.updated_files
                  (branch_name_of env.now)],
               [.error_pr_failed])
          | .ok (some url) =>
              ([.mkGitHubHelper,
                .create_pull_request_call results.updated_files
                  (branch_name_of env.now)],
               [.success_pr url])
        else ([], [])
      else ([], [])

/-- The branch names passed to `create_pull_request` in a call trace. -/
def branchNamesOf (calls : List Stage) : List String :=
  calls.filterMap (fun c =>
    match c with
    | .create_pull_request_call _ b => some b
    | _ => none)

/-! ## Decimal printing of `Nat` is injective

`branch_name_of` appends `Nat.repr` of the timestamp to a fixed stem, so
distinct timestamps give distinct branch names.  Core provides no
injectivity lemma for `Nat.repr`, so we prove one by decoding the digit
string back to the number. -/

/-- Value of a decimal digit character. -/
def decodeDigit (c : Char) : Nat := c.toNat - 48

/-- Decimal value of a character list, most significant digit first. -/
def decodeDigits (l : List Char) : Nat :=
  l.foldl (fun acc c => 10 * acc + decodeDigit c) 0

/-! ## Concrete fixtures used to exercise the theorems -/

/-- A minimal LLM analysis: every key absent. -/
def emptyAnalysis : Analysis :=
  { scores := none, summary := none, priority_fixes := none,
    dependencies := none }

/-- A stored results dict with one generated documentation patch. -/
def sampleResults : AnalysisResults :=
  { analysis := emptyAnalysis,
    updated_files := [("a.py", "def f():\n    \"\"\"doc\"\"\"\n    pass")],
    total_files := 1,
    repo_url := "https://github.com/u/r" }

/-- A session that has a completed analysis with one patch. -/
def sampleState : SessionState :=
  { analysis_complete := true, analysis_results := some sampleResults }

/-- An environment in which every outbound call succeeds. -/
def happyEnv : Env :=
  { get_repo_files := .ok [("a.py", "def f(): pass")],
    get_repo_structure := .ok "a.py",
    deep_analyze := .ok emptyAnalysis,
    generate_missing_docstrings :=
      .ok [("a.py", "def f():\n    \"\"\"doc\"\"\"\n    pass")] }

/-- A pull-request environment whose publish call succeeds. -/
def samplePrEnv : PrEnv :=
  { now := 17, create_pull_request := .ok (some "https://github.com/u/r/pull/1") }

/-- A six-element priority-fix list, descending severity. -/
def samplePriorityFixes : List PriorityFix :=
  [⟨some "CRITICAL", some "Security", some "a", none⟩,
   ⟨some "HIGH", some "Performance", some "b", none⟩,
   ⟨some "HIGH", some "Architecture", some "c", none⟩,
   ⟨some "MEDIUM", some "Code Quality", some "d", none⟩,
   ⟨some "MEDIUM", some "Dependencies", some "e", none⟩,
   ⟨some "LOW", some "Best Practices", some "f", none⟩]

/-- An analysis carrying the six sample priority fixes. -/
def sampleAnalysisWithFixes : Analysis :=
  { scores := none, summary := none,
    priority_fixes := some samplePriorityFixes, dependencies := none }

/-! ## Helper theorems -/

/-- When the button is pressed, the URL non-empty and both secrets
non-empty, the workflow is exactly the `try` block. -/
theorem runAnalysisWorkflow_eq_runTryBlock (analyze_btn : Bool)
    (repo_url google_api_key github_token : String)
    (env : Env) (s : SessionState)
    (hbtn : analyze_btn = true) (hurl : repo_url ≠ "")
    (hkey : google_api_key ≠ "") (htok : github_token ≠ "") :
    runAnalysisWorkflow analyze_btn repo_url google_api_key github_token
        env s = runTryBlock repo_url env s := by
  subst hbtn
  simp [runAnalysisWorkflow, hurl, hkey, htok]

theorem decodeDigit_digitChar {d : Nat} (h : d < 10) :
    decodeDigit (Nat.digitChar d) = d := by
  interval_cases d <;> rfl

theorem foldl_decode_toDigitsCore (fuel : Nat) :
    ∀ (n : Nat) (ds : List Char), n < fuel →
      List.foldl (fun acc c => 10 * acc + decodeDigit c) 0
          (Nat.toDigitsCore 10 fuel n ds) =
        List.foldl (fun acc c => 10 * acc + decodeDigit c) n ds := by
  induction fuel with
  | zero => intro n ds h; omega
  | succ f ih =>
    intro n ds h
    simp only [Nat.toDigitsCore]
    split
    · next h0 =>
        simp only [List.foldl_cons, decodeDigit_digitChar (Nat.mod_lt n (by norm_num))]
        congr 1
        omega
    · next h0 =>
        rw [ih (n / 10) _ (by omega)]
        simp only [List.foldl_cons, decodeDigit_digitChar (Nat.mod_lt n (by norm_num))]
        congr 1
        omega

theorem decodeDigits_toDigits (n : Nat) :
    decodeDigits (Nat.toDigits 10 n) = n := by
  unfold decodeDigits Nat.toDigits
  rw [foldl_decode_toDigitsCore (n + 1) n [] (Nat.lt_succ_self n)]
  rfl

theorem natRepr_injective : Function.Injective Nat.repr := by
  intro m n h
  have h2 : Nat.toDigits 10 m = Nat.toDigits 10 n := by
    have h3 := congrArg String.data h
    simpa [Nat.repr, List.asString] using h3
  have h4 := congrArg decodeDigits h2
  simpa [decodeDigits_toDigits] using h4

theorem branch_name_of_injective : Function.Injective branch_name_of := by
  intro m n h
  apply natRepr_injective
  have h2 := congrArg String.data h
  simp only [branch_name_of, String.data_append] at h2
  have h3 := List.append_cancel_left h2
  exact String.ext h3

/-! ## Claim theorems -/

/-- C1: Every `AnalysisReport`'s `scores` mapping has exactly the seven
fixed dimension keys, each with a numeric value within `[0, 100]`, and
any key the LLM omitted coerced to `0` (Analyzer side, modelled from the
spec since `agents/deep_analyzer.py` is not under `src/`); on the display
side a response missing the `dependencies` key yields a dependencies
score of `0` and an empty/default dependencies detail rather than an
error, and the radar chart reads all seven dimensions with default `0`
(`src/app.py` lines 113-126, 614-637). -/
theorem C1_seven_dimension_scores :
    (∀ raw : Dict Int,
        (deep_analyze_normalized_scores raw).map Prod.fst = dimension_keys) ∧
    dimension_keys.Nodup ∧
    (∀ raw : Dict Int, ∀ p ∈ deep_analyze_normalized_scores raw,
        0 ≤ p.2 ∧ p.2 ≤ 100) ∧
    (∀ raw : Dict Int, Dict.get? raw "dependencies" = none →
        Dict.get? (deep_analyze_normalized_scores raw) "dependencies" =
          some 0) ∧
    (∀ a : Analysis, a.dependencies = none →
        dependenciesTabDetail a = default_deps ∧
        dependenciesTabIssues a = []) ∧
    (∀ a : Analysis, Dict.get? (a.scores.getD []) "dependencies" = none →
        dependenciesTabScore a = 0) ∧
    (∀ raw : Dict Int, (create_dimension_chart_values raw).length = 7) ∧
    (∀ raw : Dict Int, Dict.get? raw "dependencies" = none →
        (create_dimension_chart_values raw)[5]? = some 0) := by
  refine ⟨?_, by decide, ?_, ?_, ?_, ?_, ?_, ?_⟩
  · intro raw
    rfl
  · intro raw p hp
    simp only [deep_analyze_normalized_scores, List.mem_map] at hp
    obtain ⟨k, -, rfl⟩ := hp
    exact ⟨le_min (by norm_num) (le_max_left _ _), min_le_left _ _⟩
  · intro raw h
    have hval : Dict.get? (deep_analyze_normalized_scores raw)
        "dependencies" =
        some (min 100 (max 0 (Dict.getD raw "dependencies" 0))) := rfl
    rw [hval, Dict.getD, h]
    norm_num
  · intro a h
    simp [dependenciesTabDetail, dependenciesTabIssues, default_deps, h]
  · intro a h
    simp [dependenciesTabScore, Dict.getD, h]
  · intro raw; rfl
  · intro raw h
    have hval : (create_dimension_chart_values raw)[5]? =
        some (Dict.getD raw "dependencies" 0) := rfl
    rw [hval, Dict.getD, h]
    rfl

/-- Witness for C1 at a concrete LLM response that has a `security` score
but no `dependencies` key, and at an analysis with no `dependencies`
detail. -/
theorem C1_seven_dimension_scores_witness :
    (Dict.get? [("security", (120 : Int))] "dependencies" = none ∧
      Dict.get? (deep_analyze_normalized_scores [("security", (120 : Int))])
        "dependencies" = some 0) ∧
    (emptyAnalysis.dependencies = none ∧
      dependenciesTabIssues emptyAnalysis = []) := by
  refine ⟨⟨by decide, C1_seven_dimension_scores.2.2.2.1 _ (by decide)⟩,
    rfl, (C1_seven_dimension_scores.2.2.2.2.1 emptyAnalysis rfl).2⟩

/-- C4: The free-text recommendation string is classified by severity
keyword into exactly one of three classes: an urgent marker (`🚨` or
`URGENT`) renders as an error, otherwise a warning marker (`⚠`) as a
warning, otherwise neutral/success; a summary with no recommendation
field defaults to the neutral class (`src/app.py` lines 310, 356-362). -/
theorem C4_recommendation_classes (a : Analysis) :
    ((pyIn "🚨" (recommendationOf a) ||
        pyIn "URGENT" (recommendationOf a)) = true →
      renderRecommendation (recommendationOf a) = .error) ∧
    ((pyIn "🚨" (recommendationOf a) ||
        pyIn "URGENT" (recommendationOf a)) = false →
      pyIn "⚠" (recommendationOf a) = true →
      renderRecommendation (recommendationOf a) = .warning) ∧
    ((pyIn "🚨" (recommendationOf a) ||
        pyIn "URGENT" (recommendationOf a)) = false →
      pyIn "⚠" (recommendationOf a) = false →
      renderRecommendation (recommendationOf a) = .success) ∧
    ((summaryOf a).recommendation = none →
      renderRecommendation (recommendationOf a) = .success) := by
  refine ⟨?_, ?_, ?_, ?_⟩
  · intro h; simp [renderRecommendation, h]
  · intro h1 h2; simp [renderRecommendation, h1, h2]
  · intro h1 h2; simp [renderRecommendation, h1, h2]
  · intro h
    have hrec : recommendationOf a = "Analysis complete" := by
      simp [recommendationOf, h]
    rw [hrec]
    decide

/-- Witness for C4 at an analysis whose summary has no recommendation:
the neutral/success rendering is chosen. -/
theorem C4_recommendation_classes_witness :
    (summaryOf emptyAnalysis).recommendation = none ∧
    renderRecommendation (recommendationOf emptyAnalysis) = .success :=
  ⟨rfl, (C4_recommendation_classes emptyAnalysis).2.2.2 rfl⟩

/-- C7: `priority_fixes` are never re-sorted downstream: both the
displayed list and the fixes embedded in the pull-request body are
exactly the first five elements of `priority_fixes` in the Analyzer's
original order — a prefix of the list, agreeing element for element at
every index below five, with the PR-body lines rendered from that same
prefix in the same order (`src/app.py` lines 369-380, 722). -/
theorem C7_priority_fixes_order (a : Analysis) :
    displayedPriorityFixes a ++ (priorityFixesOf a).drop 5 =
      priorityFixesOf a ∧
    (displayedPriorityFixes a).length = min 5 (priorityFixesOf a).length ∧
    (∀ i : Nat, i < 5 →
      (displayedPriorityFixes a)[i]? = (priorityFixesOf a)[i]?) ∧
    pr_body_priority_lines (priorityFixesOf a) =
      (displayedPriorityFixes a).map
        (fun p => "- " ++ pyStrOfOptStr p.category ++ ": " ++
          pyStrOfOptStr p.action) := by
  refine ⟨List.take_append_drop 5 _, List.length_take 5 _, ?_, rfl⟩
  intro i hi
  exact List.getElem?_take_of_lt hi

/-- Witness for C7 at a six-element priority list: the element at index
`1` of the displayed prefix is the second original element. -/
theorem C7_priority_fixes_order_witness :
    (1 : Nat) < 5 ∧
    (displayedPriorityFixes sampleAnalysisWithFixes)[1]? =
      some ⟨some "HIGH", some "Performance", some "b", none⟩ := by
  refine ⟨by norm_num, ?_⟩
  rw [(C7_priority_fixes_order _).2.2.1 1 (by norm_num)]
  rfl

/-- C2: Stages execute in the strict program order — helper
constructions, then fetch, structure, deep analysis and docstring
synthesis — so every analysis run's call trace is a prefix of
`analysisCallOrder`; `create_pull_request` is never invoked during the
analysis run, and in the pull-request section it can only be invoked
after the separate `create_pr_btn` user confirmation
(`src/app.py` lines 218-298, 699-738). -/
theorem C2_stage_order (analyze_btn : Bool)
    (repo_url google_api_key github_token : String) (env : Env)
    (s : SessionState) (create_pr_btn : Bool) (pr_title tok : String)
    (penv : PrEnv) (s2 : SessionState) :
    (∃ n, (runAnalysisWorkflow analyze_btn repo_url google_api_key
        github_token env s).calls = analysisCallOrder.take n) ∧
    (∀ fs b, Stage.create_pull_request_call fs b ∉
        (runAnalysisWorkflow analyze_btn repo_url google_api_key
          github_token env s).calls) ∧
    (∀ fs b, Stage.create_pull_request_call fs b ∈
        (runPrSection create_pr_btn pr_title tok penv s2).1 →
      create_pr_btn = true) := by
  refine ⟨?_, ?_, ?_⟩
  · unfold runAnalysisWorkflow runTryBlock
    repeat' split
    all_goals
      first
      | exact ⟨0, rfl⟩
      | exact ⟨4, rfl⟩
      | exact ⟨5, rfl⟩
      | exact ⟨6, rfl⟩
      | exact ⟨7, rfl⟩
  · intro fs b
    unfold runAnalysisWorkflow runTryBlock
    repeat' split
    all_goals simp
  · intro fs b h
    cases hbtn : create_pr_btn
    · exfalso
      rw [hbtn] at h
      revert h
      unfold runPrSection
      repeat' split
      all_goals simp_all
    · rfl

/-- Witness for C2: a concrete pull-request click whose trace contains
the publish call, forcing the confirmation flag. -/
theorem C2_stage_order_witness :
    Stage.create_pull_request_call sampleResults.updated_files
        (branch_name_of 17) ∈
      (runPrSection true "t" "tok" samplePrEnv sampleState).1 ∧
    true = true := by
  have hmem : Stage.create_pull_request_call sampleResults.updated_files
      (branch_name_of 17) ∈
      (runPrSection true "t" "tok" samplePrEnv sampleState).1 := by decide
  exact ⟨hmem,
    (C2_stage_order true "https://github.com/u/r" "k" "t" happyEnv
      sampleState true "t" "tok" samplePrEnv sampleState).2.2 _ _ hmem⟩

/-- C3: When fetch returns an empty file set the run aborts gracefully:
the session state is untouched, the trace stops right after the fetch
call (neither deep analysis nor docstring synthesis is invoked), the
explanatory fetch-failure message is shown, and no exception message is
produced (`src/app.py` lines 239-246). -/
theorem C3_empty_fileset_graceful (analyze_btn : Bool)
    (repo_url google_api_key github_token : String) (env : Env)
    (s : SessionState)
    (hbtn : analyze_btn = true) (hurl : repo_url ≠ "")
    (hkey : google_api_key ≠ "") (htok : github_token ≠ "")
    (hfetch : env.get_repo_files = .ok []) :
    (runAnalysisWorkflow analyze_btn repo_url google_api_key github_token
        env s).state = s ∧
    (runAnalysisWorkflow analyze_btn repo_url google_api_key github_token
        env s).calls =
      [Stage.mkGitHubHelper, Stage.mkDeepAnalyzer, Stage.mkDocGenerator,
       Stage.get_repo_files_call] ∧
    (runAnalysisWorkflow analyze_btn repo_url google_api_key github_token
        env s).msgs = [Msg.error_could_not_fetch] ∧
    Stage.deep_analyze_call ∉
      (runAnalysisWorkflow analyze_btn repo_url google_api_key github_token
        env s).calls ∧
    Stage.generate_missing_docstrings_call ∉
      (runAnalysisWorkflow analyze_btn repo_url google_api_key github_token
        env s).calls ∧
    (∀ e, Msg.error_exception e ∉
      (runAnalysisWorkflow analyze_btn repo_url google_api_key github_token
        env s).msgs) := by
  rw [runAnalysisWorkflow_eq_runTryBlock _ _ _ _ _ _ hbtn hurl hkey htok]
  simp [runTryBlock, hfetch]

/-- Witness for C3 at a concrete run whose fetch yields no files. -/
theorem C3_empty_fileset_graceful_witness :
    (true = true ∧ "https://github.com/u/r" ≠ "" ∧ "k" ≠ "" ∧ "t" ≠ "") ∧
    (runAnalysisWorkflow true "https://github.com/u/r" "k" "t"
        { happyEnv with get_repo_files := .ok [] } sampleState).state =
      sampleState := by
  refine ⟨⟨rfl, by decide, by decide, by decide⟩, ?_⟩
  exact (C3_empty_fileset_graceful true "https://github.com/u/r" "k" "t"
    { happyEnv with get_repo_files := .ok [] } sampleState rfl
    (by decide) (by decide) (by decide) rfl).1

/-- C6: `create_pull_request` is only ever invoked with a non-empty set
of updated files — the whole pull-request path is guarded by
`if results['updated_files']:` — and only with the session's stored
patch set, after a completed analysis, on the user's confirmation click
(`src/app.py` lines 671, 699, 732-738). -/
theorem C6_publish_nonempty_patchset (create_pr_btn : Bool)
    (pr_title tok : String) (penv : PrEnv) (s : SessionState)
    (fs : Dict String) (b : String)
    (h : Stage.create_pull_request_call fs b ∈
        (runPrSection create_pr_btn pr_title tok penv s).1) :
    fs ≠ [] ∧ create_pr_btn = true ∧
    ∃ results, s.analysis_results = some results ∧
      fs = results.updated_files ∧ s.analysis_complete = true := by
  revert h
  unfold runPrSection
  split
  · intro h; simp at h
  · next results hres =>
    split
    · next hcomp =>
      split
      · intro h; simp at h
      · next hemp =>
        split
        · next hbtn =>
          split <;>
            (intro h
             simp at h
             obtain ⟨rfl, -⟩ := h
             exact ⟨by simpa [List.isEmpty_iff] using hemp, hbtn,
               results, hres, rfl, hcomp⟩)
        · next hbtn =>
          intro h; simp at h
    · next hcomp =>
      intro h; simp at h

/-- Witness for C6: the concrete click of `C2`'s witness publishes the
stored one-file patch set, which is non-empty. -/
theorem C6_publish_nonempty_patchset_witness :
    Stage.create_pull_request_call sampleResults.updated_files
        (branch_name_of 17) ∈
      (runPrSection true "t" "tok" samplePrEnv sampleState).1 ∧
    sampleResults.updated_files ≠ [] := by
  have hmem : Stage.create_pull_request_call sampleResults.updated_files
      (branch_name_of 17) ∈
      (runPrSection true "t" "tok" samplePrEnv sampleState).1 := by decide
  exact ⟨hmem,
    (C6_publish_nonempty_patchset true "t" "tok" samplePrEnv sampleState
      _ _ hmem).1⟩

/-- C5 counterexample: the branch name is derived from
`int(time.time())` alone, so two distinct publish attempts (here:
different PR titles) falling in the same wall-clock second produce the
same branch name — the claim that any two distinct attempts produce
distinct names fails (`src/app.py` line 703). -/
theorem C5_branch_name_counterexample :
    "Title A" ≠ "Title B" ∧
    branchNamesOf
        (runPrSection true "Title A" "tok" samplePrEnv sampleState).1 =
      branchNamesOf
        (runPrSection true "Title B" "tok" samplePrEnv sampleState).1 ∧
    branchNamesOf
        (runPrSection true "Title A" "tok" samplePrEnv sampleState).1 =
      ["ai-agent-improvements-17"] := by
  refine ⟨by decide, rfl, by decide⟩

/-- C5 (amended): the branch name is the fixed stem plus the integer
Unix timestamp in seconds, so publish attempts whose timestamps differ
get distinct branch names; attempts within the same second collide
(`src/app.py` line 703). -/
theorem C5_branch_names_distinct_timestamps (pbtn1 pbtn2 : Bool)
    (t1 t2 tok1 tok2 : String) (e1 e2 : PrEnv) (s1 s2 : SessionState)
    (hnow : e1.now ≠ e2.now) :
    ∀ b1 ∈ branchNamesOf (runPrSection pbtn1 t1 tok1 e1 s1).1,
    ∀ b2 ∈ branchNamesOf (runPrSection pbtn2 t2 tok2 e2 s2).1,
      b1 ≠ b2 := by
  have key : ∀ (p : Bool) (t tk : String) (e : PrEnv) (st : SessionState)
      (b : String), b ∈ branchNamesOf (runPrSection p t tk e st).1 →
      b = branch_name_of e.now := by
    intro p t tk e st b hb
    revert hb
    unfold runPrSection
    repeat' split
    all_goals intro hb
    all_goals simp [branchNamesOf] at hb
    all_goals exact hb
  intro b1 hb1 b2 hb2
  rw [key _ _ _ _ _ _ hb1, key _ _ _ _ _ _ hb2]
  exact fun hc => hnow (branch_name_of_injective hc)

/-- Witness for the amended C5: two concrete attempts one second apart
produce distinct branch names. -/
theorem C5_branch_names_distinct_timestamps_witness :
    ({ samplePrEnv with now := 17 } : PrEnv).now ≠
      ({ samplePrEnv with now := 18 } : PrEnv).now ∧
    "ai-agent-improvements-17" ∈
      branchNamesOf (runPrSection true "t" "tok"
        { samplePrEnv with now := 17 } sampleState).1 ∧
    "ai-agent-improvements-18" ∈
      branchNamesOf (runPrSection true "t" "tok"
        { samplePrEnv with now := 18 } sampleState).1 ∧
    "ai-agent-improvements-17" ≠ "ai-agent-improvements-18" := by
  refine ⟨by decide, by decide, by decide, ?_⟩
  exact C5_branch_names_distinct_timestamps true true "t" "t" "tok" "tok"
    { samplePrEnv with now := 17 } { samplePrEnv with now := 18 }
    sampleState sampleState (by decide) _ (by decide) _ (by decide)

/-- C8: A successful run replaces the session's results wholesale: the
resulting state is the fresh record built from this run's analysis,
updated files, file count and URL, with no dependence on — and no field
surviving from — any previously stored results
(`src/app.py` lines 282-288). -/
theorem C8_results_replaced_wholesale (analyze_btn : Bool)
    (repo_url google_api_key github_token : String) (env : Env)
    (s : SessionState) (files : Dict String) (sr : String)
    (analysis : Analysis) (updated : Dict String)
    (hbtn : analyze_btn = true) (hurl : repo_url ≠ "")
    (hkey : google_api_key ≠ "") (htok : github_token ≠ "")
    (hfetch : env.get_repo_files = .ok files)
    (hne : files.isEmpty = false)
    (hstruct : env.get_repo_structure = .ok sr)
    (hana : env.deep_analyze = .ok analysis)
    (hdoc : env.generate_missing_docstrings = .ok updated) :
    (runAnalysisWorkflow analyze_btn repo_url google_api_key github_token
        env s).state =
      { analysis_complete := true,
        analysis_results := some
          { analysis := analysis, updated_files := updated,
            total_files := files.length, repo_url := repo_url } } ∧
    ∀ s' : SessionState,
      (runAnalysisWorkflow analyze_btn repo_url google_api_key github_token
          env s').state =
        (runAnalysisWorkflow analyze_btn repo_url google_api_key
            github_token env s).state := by
  have hmain : ∀ t : SessionState,
      (runAnalysisWorkflow analyze_btn repo_url google_api_key github_token
          env t).state =
        { analysis_complete := true,
          analysis_results := some
            { analysis := analysis, updated_files := updated,
              total_files := files.length, repo_url := repo_url } } := by
    intro t
    rw [runAnalysisWorkflow_eq_runTryBlock _ _ _ _ _ _ hbtn hurl hkey htok]
    simp [runTryBlock, hfetch, hne, hstruct, hana, hdoc]
  exact ⟨hmain s, fun s' => (hmain s').trans (hmain s).symm⟩

/-- Witness for C8: a concrete successful run over a session that held
stale results ends in exactly the fresh results. -/
theorem C8_results_replaced_wholesale_witness :
    (runAnalysisWorkflow true "https://github.com/u/r" "k" "t" happyEnv
        { analysis_complete := false, analysis_results := none }).state =
      { analysis_complete := true,
        analysis_results := some
          { analysis := emptyAnalysis,
            updated_files :=
              [("a.py", "def f():\n    \"\"\"doc\"\"\"\n    pass")],
            total_files := 1,
            repo_url := "https://github.com/u/r" } } :=
  (C8_results_replaced_wholesale true "https://github.com/u/r" "k" "t"
    happyEnv { analysis_complete := false, analysis_results := none }
    [("a.py", "def f(): pass")] "a.py" emptyAnalysis
    [("a.py", "def f():\n    \"\"\"doc\"\"\"\n    pass")]
    rfl (by decide) (by decide) (by decide) rfl rfl rfl rfl rfl).1

/-- C9: If any stage of a run raises an error (reported as an exception
message by the `except` handler), the session state is unchanged: the
stored results and the completion flag keep their prior values, so the
system stays ready for a fresh run (`src/app.py` lines 282-298). -/
theorem C9_error_preserves_state (analyze_btn : Bool)
    (repo_url google_api_key github_token : String) (env : Env)
    (s : SessionState)
    (h : ∃ e, Msg.error_exception e ∈
        (runAnalysisWorkflow analyze_btn repo_url google_api_key
          github_token env s).msgs) :
    (runAnalysisWorkflow analyze_btn repo_url google_api_key github_token
        env s).state = s ∧
    (runAnalysisWorkflow analyze_btn repo_url google_api_key github_token
        env s).state.analysis_complete = s.analysis_complete ∧
    (runAnalysisWorkflow analyze_btn repo_url google_api_key github_token
        env s).state.analysis_results = s.analysis_results := by
  have hmain : (runAnalysisWorkflow analyze_btn repo_url google_api_key
      github_token env s).state = s := by
    obtain ⟨e, he⟩ := h
    revert he
    unfold runAnalysisWorkflow runTryBlock
    repeat' split
    all_goals intro he
    all_goals first | rfl | (exfalso; simp at he)
  exact ⟨hmain, by rw [hmain], by rw [hmain]⟩

/-- Witness for C9: a concrete run whose deep-analysis stage raises
leaves the stored session state intact. -/
theorem C9_error_preserves_state_witness :
    (∃ e, Msg.error_exception e ∈
      (runAnalysisWorkflow true "https://github.com/u/r" "k" "t"
        { happyEnv with deep_analyze := .error "quota exceeded" }
        sampleState).msgs) ∧
    (runAnalysisWorkflow true "https://github.com/u/r" "k" "t"
        { happyEnv with deep_analyze := .error "quota exceeded" }
        sampleState).state = sampleState := by
  refine ⟨⟨"quota exceeded", by decide⟩, ?_⟩
  exact (C9_error_preserves_state true "https://github.com/u/r" "k" "t"
    { happyEnv with deep_analyze := .error "quota exceeded" } sampleState
    ⟨"quota exceeded", by decide⟩).1

/-- C10: The pipeline never starts unless both secrets are non-empty: if
either the Google API key or the GitHub token is the empty string, the
run is rejected with the both-keys error message, no helper is
constructed, no stage is invoked, and the session state is untouched
(`src/app.py` lines 218-225). -/
theorem C10_secrets_guard (analyze_btn : Bool)
    (repo_url google_api_key github_token : String) (env : Env)
    (s : SessionState)
    (hbtn : analyze_btn = true) (hurl : repo_url ≠ "")
    (hmissing : google_api_key = "" ∨ github_token = "") :
    runAnalysisWorkflow analyze_btn repo_url google_api_key github_token
        env s =
      { state := s, calls := [], msgs := [Msg.error_both_keys] } := by
  subst hbtn
  rcases hmissing with h | h <;> subst h <;>
    simp [runAnalysisWorkflow, hurl]

/-- Witness for C10: a concrete run with an empty Google API key shows
only the error message and makes no calls. -/
theorem C10_secrets_guard_witness :
    runAnalysisWorkflow true "https://github.com/u/r" "" "t" happyEnv
        sampleState =
      { state := sampleState, calls := [],
        msgs := [Msg.error_both_keys] } :=
  C10_secrets_guard true "https://github.com/u/r" "" "t" happyEnv
    sampleState rfl (by decide) (Or.inl rfl)

end AppModel


